import Mathlib

/-!
Shallow embedding of the hoval-gateway protocol layer
(`src/gateway/message.py`, `src/gateway/core.py`, `src/__main__.py`).

Python unbounded ints are `Nat` (all wire quantities are non-negative;
`nb_remaining` is `Int` because it is decremented).  Python `bytearray`s
are `List Nat`.  Python exceptions are an explicit `PyError` tag returned
through `Except`.  External collaborators that are not under `src/`
(the datapoint registry `gateway/datapoint.py`, the value codec
`gateway/datatypes.py`, `gateway/settings.py`) are modelled from the spec
where noted, or taken as parameters.
-/

namespace HovalGateway

/-- Big-endian byte-sequence to integer, `int.from_bytes(bs, byteorder='big')`. -/
def bytesToNat (bs : List Nat) : Nat :=
  bs.foldl (fun acc b => 256 * acc + b) 0

/-- Two's-complement reading of an unsigned big-endian integer at a bit width,
`int.from_bytes(bs, byteorder='big', signed=True)`. -/
def toSigned (bits : Nat) (n : Nat) : Int :=
  if n < 2 ^ (bits - 1) then (n : Int) else (n : Int) - 2 ^ bits

/-- `Operation` enum, `gateway/message.py` lines 11-19:
RESPONSE = 0x42, GET_REQUEST = 0x40, SET_REQUEST = 0x46. -/
inductive Operation where
  | RESPONSE
  | GET_REQUEST
  | SET_REQUEST
deriving DecidableEq

/-- `Operation.value` of each enum member. -/
def Operation.value : Operation → Nat
  | .RESPONSE => 0x42
  | .GET_REQUEST => 0x40
  | .SET_REQUEST => 0x46

/-- `Operation.list()`: the operation codes in declaration order.
Also stands for `settings.OPERATIONS.values()` (`gateway/settings.py` is not
under `src/`; modelled from the spec's three known operation codes, which
coincide with this enum). -/
def Operation.list : List Nat := [0x42, 0x40, 0x46]

/-- `Operation(value)`: enum construction from a code; `none` models the
`ValueError` Python raises on an unknown code. -/
def Operation.ofValue : Nat → Option Operation
  | 0x42 => some .RESPONSE
  | 0x40 => some .GET_REQUEST
  | 0x46 => some .SET_REQUEST
  | _ => none

/-- Python exceptions that the embedded code can raise, one tag per raise
site / exception class. -/
inductive PyError where
  /-- `NoValidMessageException("Message too short for parsing")` -/
  | noValidMessageTooShort
  /-- `NoValidMessageException(... is out of bounds of limits ...)` -/
  | noValidMessageOutOfBounds
  /-- `NoValidMessageException("Message is too long")` -/
  | noValidMessageTooLong
  /-- `VariableNotFoundError` from `get_env_settings_safe` -/
  | variableNotFound
  /-- Python `AttributeError` (attribute access on an object lacking it) -/
  | attributeError
  /-- Python `TypeError` (unorderable / mismatched operand types) -/
  | typeError
  /-- Python `ValueError` (`Operation(x)` with an unknown code) -/
  | valueError
deriving DecidableEq

/-- A decoded datapoint value.  Modelled from the spec: `gateway/datatypes.py`
is not under `src/`.  Numeric decodes are rationals (fixed-point factor),
EnumList decodes keep the raw bytes as the symbolic-state marker, Text is a
best-effort placeholder. -/
inductive Value where
  | num (q : ℚ)
  | enum (raw : List Nat)
  | text (s : String)
deriving DecidableEq

/-- Declared datapoint type.  Modelled from the spec: `gateway/datatypes.py`
(`Signed(width, factor)`, `Unsigned(width, factor)`, `List()`, `String()`)
is not under `src/`. -/
inductive Datatype where
  | signed (bits : Nat) (factor : ℚ)
  | unsigned (bits : Nat) (factor : ℚ)
  | list
  | text
deriving DecidableEq

/-- Modelled from the spec: `convert_from_bytes` of `gateway/datatypes.py`,
big-endian two's-complement / plain integer scaled by the fixed-point factor;
EnumList never fails; Text degrades to a placeholder. -/
def Datatype.convert_from_bytes : Datatype → List Nat → Value
  | .signed bits factor, bs => .num ((toSigned bits (bytesToNat bs) : ℚ) / factor)
  | .unsigned _bits factor, bs => .num ((bytesToNat bs : ℚ) / factor)
  | .list, bs => .enum bs
  | .text, _ => .text ""

/-- Declared numeric limits of a datapoint (the `lower` / `upper` keys of
`get_datapoint_limits()`).  Modelled from the spec §3. -/
structure Limits where
  lower : ℚ
  upper : ℚ
deriving DecidableEq

/-- A registry datapoint.  Modelled from the spec §3: `gateway/datapoint.py`
is not under `src/`. -/
structure Datapoint where
  function_group : Nat
  function_number : Nat
  datapoint_id : Nat
  function_name : String
  datapoint_type : Datatype
  limits : Option Limits
  periodic : Bool
deriving DecidableEq

/-- `get_datapoint_type()` accessor. -/
def Datapoint.get_datapoint_type (d : Datapoint) : Datatype := d.datapoint_type

/-- `get_datapoint_limits()` accessor. -/
def Datapoint.get_datapoint_limits (d : Datapoint) : Option Limits := d.limits

/-- Modelled from the spec: `get_datapoint_by_bytes()` returns the 2-byte
big-endian datapoint id (`datapoint_id_hi, datapoint_id_lo`, spec §4.4). -/
def Datapoint.get_datapoint_by_bytes (d : Datapoint) : List Nat :=
  [d.datapoint_id / 256 % 256, d.datapoint_id % 256]

/-- The datapoint registry lookup `datapoint.get_datapoint_by_id`
(external collaborator): `none` models a Python `None` result. -/
def Registry : Type := Nat → Nat → Nat → Option Datapoint

/-! ## Arbitration-id codec, `gateway/message.py` lines 160-189 -/

/-- `get_message_id`: `arbitration_id >> 24`. -/
def get_message_id (arbitration_id : Nat) : Nat :=
  arbitration_id >>> 24

/-- `get_message_priority`: `arbitration_id >> 16 & 0xff`. -/
def get_message_priority (arbitration_id : Nat) : Nat :=
  arbitration_id >>> 16 &&& 0xff

/-- `get_message_device_type`: `arbitration_id >> 8 & 0xfff`
(the mask in the source is 0xfff, not 0xff). -/
def get_message_device_type (arbitration_id : Nat) : Nat :=
  arbitration_id >>> 8 &&& 0xfff

/-- `get_message_device_id`: `arbitration_id & 0xff`. -/
def get_message_device_id (arbitration_id : Nat) : Nat :=
  arbitration_id &&& 0xff

/-- `get_message_len`: `data[0] >> 3`. -/
def get_message_len (data : List Nat) : Nat :=
  data.getD 0 0 >>> 3

/-- `get_operation_id`: `data[1]`. -/
def get_operation_id (data : List Nat) : Nat :=
  data.getD 1 0

/-- `build_arbitration_id(message_id, priority, device_type, device_id)`. -/
def build_arbitration_id (message_id priority device_type device_id : Nat) : Nat :=
  (message_id <<< 24) ||| (priority <<< 16) ||| (device_type <<< 8) ||| device_id

/-! ## ReceiveMessage, `gateway/message.py` lines 22-116 -/

/-- The state of a `ReceiveMessage` object (fields of `Message.__init__` plus
`ReceiveMessage.__init__`).  The four arbitration-derived fields are exposed
as accessors below. -/
structure ReceiveMessage where
  arbitration_id : Nat
  operation_id : Nat
  message_len : Nat
  nb_remaining : Int
  data : List Nat
deriving DecidableEq

/-- `ReceiveMessage(arbitration_id, operation_id, message_len)`:
`nb_remaining = message_len + 1`, empty data buffer. -/
def ReceiveMessage.create (arbitration_id operation_id message_len : Nat) : ReceiveMessage :=
  { arbitration_id, operation_id, message_len,
    nb_remaining := (message_len : Int) + 1, data := [] }

/-- `self.message_id = arbitration_id >> 24`. -/
def ReceiveMessage.message_id (m : ReceiveMessage) : Nat := m.arbitration_id >>> 24

/-- `self.priority = (arbitration_id >> 16) & 0xff`. -/
def ReceiveMessage.priority (m : ReceiveMessage) : Nat := m.arbitration_id >>> 16 &&& 0xff

/-- `self.device_type = (arbitration_id >> 8) & 0xff`. -/
def ReceiveMessage.device_type (m : ReceiveMessage) : Nat := m.arbitration_id >>> 8 &&& 0xff

/-- `self.device_id = arbitration_id & 0xff`. -/
def ReceiveMessage.device_id (m : ReceiveMessage) : Nat := m.arbitration_id &&& 0xff

/-- `Message._is_valid`: `operation_id in Operation.list()`. -/
def ReceiveMessage.is_valid (m : ReceiveMessage) : Bool :=
  Operation.list.contains m.operation_id

/-- `ReceiveMessage.put_data`: append the payload and decrement
`nb_remaining`, guarded by `_is_valid`. -/
def ReceiveMessage.put_data (m : ReceiveMessage) (data : List Nat) : ReceiveMessage :=
  if m.is_valid then
    { m with data := m.data ++ data, nb_remaining := m.nb_remaining - 1 }
  else m

/-- `ReceiveMessage.put_extended_data`: append the payload minus its two
trailing control bytes (`data[:-2]`). -/
def ReceiveMessage.put_extended_data (m : ReceiveMessage) (data : List Nat) : ReceiveMessage :=
  if m.is_valid then
    { m with data := m.data ++ data.take (data.length - 2), nb_remaining := m.nb_remaining - 1 }
  else m

/-- The diagnostic length-dispatched candidate decodes of
`ReceiveMessage.parse` (`gateway/message.py` lines 65-98): the list
`datapoints` together with the datatype each candidate was decoded with. -/
def diagnostic_candidates (datapoint_value : List Nat) : List (Datatype × Value) :=
  if datapoint_value.length = 1 then
    [(.signed 8 1, (Datatype.signed 8 1).convert_from_bytes datapoint_value),
     (.unsigned 8 1, (Datatype.unsigned 8 1).convert_from_bytes datapoint_value),
     (.list, Datatype.list.convert_from_bytes datapoint_value)]
  else if datapoint_value.length = 2 then
    [(.signed 16 1, (Datatype.signed 16 1).convert_from_bytes datapoint_value),
     (.unsigned 16 1, (Datatype.unsigned 16 1).convert_from_bytes datapoint_value),
     (.list, Datatype.list.convert_from_bytes datapoint_value)]
  else if datapoint_value.length = 4 then
    [(.signed 32 1, (Datatype.signed 32 1).convert_from_bytes datapoint_value),
     (.unsigned 32 1, (Datatype.unsigned 32 1).convert_from_bytes datapoint_value),
     (.list, Datatype.list.convert_from_bytes datapoint_value)]
  else
    [(.list, Datatype.list.convert_from_bytes datapoint_value)]

/-- `ReceiveMessage.parse` (`gateway/message.py` lines 56-109).  The registry
lookup is a parameter; a `none` lookup makes the following
`.get_datapoint_limits()` call raise `AttributeError` (method access on
Python `None`).  `Operation(self.operation_id)` is evaluated at the `return`,
after the limits check, and raises `ValueError` on an unknown code. -/
def ReceiveMessage.parse (registry : Registry) (m : ReceiveMessage) :
    Except PyError (Datapoint × Operation × Value) :=
  if m.data.length < 6 then .error .noValidMessageTooShort
  else
    let function_group := m.data.getD 2 0
    let function_number := m.data.getD 3 0
    let datapoint_id := bytesToNat ((m.data.drop 4).take 2)
    let datapoint_value := m.data.drop 6
    let _datapoints := diagnostic_candidates datapoint_value
    match registry function_group function_number datapoint_id with
    | none => .error .attributeError
    | some read_datapoint =>
      let converted_value :=
        read_datapoint.get_datapoint_type.convert_from_bytes (m.data.drop 6)
      let limit_check : Except PyError Unit :=
        match read_datapoint.get_datapoint_limits with
        | some lim =>
          match converted_value with
          | .num q =>
            if q < lim.lower ∨ q > lim.upper then .error .noValidMessageOutOfBounds
            else .ok ()
          | _ => .error .typeError
        | none => .ok ()
      match limit_check with
      | .error e => .error e
      | .ok _ =>
        match Operation.ofValue m.operation_id with
        | none => .error .valueError
        | some op => .ok (read_datapoint, op, converted_value)

/-! ## SendMessage, `gateway/message.py` lines 119-152 -/

/-- The state of a `SendMessage` object. -/
structure SendMessage where
  arbitration_id : Nat
  operation_id : Nat
  message_len : Nat
  header_data : List Nat
  data : List Nat
deriving DecidableEq

/-- `SendMessage._message_size = 8`. -/
def SendMessage.message_size : Nat := 8

/-- `SendMessage(arbitration_id, operation_id, datapoint_of_message)`:
`message_len = 1` and `_put_header` fills `header_data` with
`[message_len, operation_id, function_group, function_number]` followed by
`get_datapoint_by_bytes()`. -/
def SendMessage.create (arbitration_id operation_id : Nat)
    (datapoint_of_message : Datapoint) : SendMessage :=
  { arbitration_id, operation_id, message_len := 1,
    header_data :=
      [1, operation_id, datapoint_of_message.function_group,
       datapoint_of_message.function_number] ++
        datapoint_of_message.get_datapoint_by_bytes,
    data := [] }

/-- `Message._is_valid` on a `SendMessage`. -/
def SendMessage.is_valid (m : SendMessage) : Bool :=
  Operation.list.contains m.operation_id

/-- `SendMessage.put_data`: append payload bytes, guarded by `_is_valid`. -/
def SendMessage.put_data (m : SendMessage) (data : List Nat) : SendMessage :=
  if m.is_valid then { m with data := m.data ++ data } else m

/-- `SendMessage.put_single_data`. -/
def SendMessage.put_single_data (m : SendMessage) (data : Nat) : SendMessage :=
  m.put_data [data]

/-- The `can.Message` value built by `to_can_message`. -/
structure CanMessage where
  arbitration_id : Nat
  data : List Nat
  is_extended_id : Bool
deriving DecidableEq

/-- `SendMessage.to_can_message`: concatenates header and payload, raises
`NoValidMessageException("Message is too long")` when
`len(data) + len(header_data) > 8`, otherwise returns the CAN frame. -/
def SendMessage.to_can_message (m : SendMessage) : Except PyError CanMessage :=
  let can_data := m.header_data ++ m.data
  if m.data.length + m.header_data.length > SendMessage.message_size then
    .error .noValidMessageTooLong
  else
    .ok { arbitration_id := m.arbitration_id, data := can_data, is_extended_id := true }

/-! ## ResponseParser, `gateway/core.py` lines 8-47 -/

/-- `Device(device_id, device_type)` (`gateway/datapoint.py` is not under
`src/`; modelled from the spec §3: a device is its id/type pair). -/
structure Device where
  device_id : Nat
  device_type : Nat
deriving DecidableEq

/-- The value stored in the pending table: `core.py` line 32 stores the
one-element Python SET literal `{ message }`, not the message itself.
A set has no `put` attribute, which makes the continuation branch raise. -/
structure MsgSet where
  elem : ReceiveMessage
deriving DecidableEq

/-- Dict lookup: first entry with the given key. -/
def tableLookup {α : Type} (k : Nat) (t : List (Nat × α)) : Option α :=
  (t.find? (fun p => p.1 == k)).map Prod.snd

/-- Dict assignment `t[k] = v`: replace in place when the key exists,
append otherwise (Python dicts keep insertion order). -/
def tableSet {α : Type} (k : Nat) (v : α) (t : List (Nat × α)) : List (Nat × α) :=
  if (tableLookup k t).isSome then
    t.map (fun p => if p.1 == k then (k, v) else p)
  else t ++ [(k, v)]

/-- The mutable state of `ResponseParser`: `_pending_msg` and `_devices`. -/
structure ParserState where
  pending_msg : List (Nat × MsgSet)
  devices : List (Nat × Device)
deriving DecidableEq

/-- An inbound raw CAN frame as consumed by `ResponseParser.parse`
(the `msg.arbitration_id` / `msg.data` attributes it reads). -/
structure Frame where
  arbitration_id : Nat
  data : List Nat
deriving DecidableEq

/-- `ResponseParser.parse` (`gateway/core.py` lines 12-47).

`core.py` constructs `Message(msg.arbitration_id, (msg.data[0] >> 3), msg.data[1])`,
i.e. a three-argument message whose second argument is the declared length
`data[0] >> 3` and whose third is the operation code `data[1]`; it is realized
here by `src/gateway/message.py`'s `ReceiveMessage(arbitration_id,
operation_id, message_len)` state, and `message.put(Response(msg.data))` by
`ReceiveMessage.put_data`, `message.parse_data()` by `ReceiveMessage.parse`
(those helper names live in a revision of `gateway/message.py` that is not
under `src/`).

The result is the returned value (or the exception escaping `parse`) paired
with the parser state after the call; mutations made before a raise persist.
Notes kept faithful to the source:
* line 29 `logging.debug("Message data: " + message.parse_data())` evaluates
  `parse_data` for its argument, so an exception raised there escapes
  `parse`; the successfully parsed value itself is only logged and dropped
  (the string concatenation of the logging call is not modelled);
* line 32 stores `{ message }`, a one-element set, keyed by
  `message.operation_id`;
* lines 38-39 fetch that stored set and call `.put` on it, which raises
  `AttributeError` because sets have no `put` attribute, so lines 40-46
  are unreachable. -/
def ResponseParser.parse (registry : Registry) (st : ParserState) (msg : Frame) :
    Except PyError (Option (Datapoint × Operation × Value)) × ParserState :=
  if msg.data.length < 2 then
    (.ok none, st)
  else
    let message :=
      ReceiveMessage.create msg.arbitration_id (msg.data.getD 1 0) (msg.data.getD 0 0 >>> 3)
    if Operation.list.contains message.operation_id then
      -- device registration mutates only the `_devices` dict; the pending
      -- table reads below are unaffected by it
      let devices :=
        if (tableLookup message.device_id st.devices).isNone then
          tableSet message.device_id
            { device_id := message.device_id, device_type := message.device_type }
            st.devices
        else st.devices
      if message.message_id = 0x1f then
        if message.message_len = 0 then
          let message := message.put_data msg.data
          if message.operation_id = 0x42 then
            match message.parse registry with
            | .ok r => (.ok (some r), ⟨st.pending_msg, devices⟩)
            | .error e => (.error e, ⟨st.pending_msg, devices⟩)
          else
            match message.parse registry with
            | .ok _ => (.ok none, ⟨st.pending_msg, devices⟩)
            | .error e => (.error e, ⟨st.pending_msg, devices⟩)
        else
          (.ok none, ⟨tableSet message.operation_id ⟨message⟩ st.pending_msg, devices⟩)
      else
        match tableLookup (msg.data.getD 0 0) st.pending_msg with
        | some _stored => (.error .attributeError, ⟨st.pending_msg, devices⟩)
        | none => (.ok none, ⟨st.pending_msg, devices⟩)
    else
      (.ok none, st)

/-! ## Request dispatchers, `gateway/core.py` lines 50-93 -/

/-- `PeriodicRequest._prio = 8160`. -/
def PeriodicRequest.prio : Nat := 8160

/-- The arbitration id computed in `PeriodicRequest.__init__`:
`(8160 << 16) | (device_type << 8) | device_id`. -/
def PeriodicRequest.arbitration_id (device : Device) : Nat :=
  (PeriodicRequest.prio <<< 16) ||| (device.device_type <<< 8) ||| device.device_id

/-- The arbitration id computed in `OneTimeRequest.__init__`
(same formula and constant as `PeriodicRequest`). -/
def OneTimeRequest.arbitration_id (device : Device) : Nat :=
  (8160 <<< 16) ||| (device.device_type <<< 8) ||| device.device_id

/-! ## Settings parsing, `src/__main__.py` lines 20-47 -/

/-- A Python value held in the settings dictionaries: the booleans produced
by the env parsing and plain strings / yaml scalars. -/
inductive PyVal where
  | vBool (b : Bool)
  | vStr (s : String)
deriving DecidableEq

/-- `get_env_settings_safe(env_name, settings_name, settings, default)`
(`src/__main__.py` lines 20-34).  The process environment `os.environ` is the
explicit `env` parameter; `.error .variableNotFound` models the raised
`VariableNotFoundError`. -/
def get_env_settings_safe (env : String → Option String)
    (env_name settings_name : String) (settings : String → Option PyVal)
    (default : Option PyVal) : Except PyError PyVal :=
  match env env_name with
  | some v =>
    if v.toLower = "true" ∨ v.toLower = "1" then .ok (.vBool true)
    else if v.toLower = "false" ∨ v.toLower = "0" then .ok (.vBool false)
    else .ok (.vStr v)
  | none =>
    match settings settings_name with
    | some v => .ok v
    | none =>
      match default with
      | some d => .ok d
      | none => .error .variableNotFound

/-- The seven `_mqtt_settings` assignments of `parse_mqtt_settings`, in
source order: environment name, settings key, dictionary key, default. -/
def mqtt_setting_specs : List (String × String × String × Option PyVal) :=
  [("MQTT_ENABLE", "enable", "enable", some (.vBool true)),
   ("MQTT_NAME", "name", "name", none),
   ("MQTT_TOPIC", "topic", "topic", some (.vStr "hoval-gw")),
   ("MQTT_BROKER", "broker", "broker", none),
   ("MQTT_USERNAME", "username", "username", none),
   ("MQTT_PASSWORD", "password", "password", none),
   ("MQTT_PORT", "port", "port", some (.vStr "1883"))]

/-- Runs the assignment sequence of the `try` block: each successful
`get_env_settings_safe` stores its key; a `VariableNotFoundError` aborts the
remaining assignments (the `except` clause catches it, logs, and returns). -/
def collect_settings (env : String → Option String) (element : String → Option PyVal) :
    List (String × String × String × Option PyVal) → List (String × PyVal)
  | [] => []
  | (env_name, settings_name, key, default) :: rest =>
    match get_env_settings_safe env env_name settings_name element default with
    | .ok v => (key, v) :: collect_settings env element rest
    | .error _ => []

/-- `parse_mqtt_settings(element)` (`src/__main__.py` lines 37-47): fills
`_mqtt_settings` until the first missing required setting; the raised
`VariableNotFoundError` is caught and logged, and the function returns
normally with the partial dictionary. -/
def parse_mqtt_settings (env : String → Option String)
    (element : String → Option PyVal) : List (String × PyVal) :=
  collect_settings env element mqtt_setting_specs

deriving instance DecidableEq for Except

/-! ## Concrete fixtures used by the theorems below -/

/-- A registry datapoint for the triple `(3, 4, 5)` (spec end-to-end
scenario 1), typed Unsigned(8) with factor 1 and no limits. -/
def dp0 : Datapoint :=
  { function_group := 3, function_number := 4, datapoint_id := 5,
    function_name := "sample_point", datapoint_type := .unsigned 8 1,
    limits := none, periodic := false }

/-- A registry datapoint for the triple `(3, 4, 6)` with declared limits
`[0, 20]`. -/
def dpLim : Datapoint :=
  { function_group := 3, function_number := 4, datapoint_id := 6,
    function_name := "limited_point", datapoint_type := .unsigned 8 1,
    limits := some { lower := 0, upper := 20 }, periodic := false }

/-- A concrete registry holding `dp0` and `dpLim`. -/
def registry0 : Registry := fun fg fn id =>
  if fg = 3 ∧ fn = 4 ∧ id = 5 then some dp0
  else if fg = 3 ∧ fn = 4 ∧ id = 6 then some dpLim
  else none

/-- The empty parser state (fresh `ResponseParser`). -/
def st0 : ParserState := ⟨[], []⟩

/-- Spec end-to-end scenario 1, first frame: `message_kind = 0x1f`,
`device_type = 1`, `device_id = 2`, payload
`[0x08, 0x42, 0x03, 0x04, 0x00, 0x05, 0x2A]` (declared_length `0x08 >> 3 = 1`,
operation RESPONSE, session key `0x08`). -/
def frameFirst : Frame :=
  ⟨build_arbitration_id 0x1f 0 1 2, [0x08, 0x42, 0x03, 0x04, 0x00, 0x05, 0x2A]⟩

/-- Spec end-to-end scenario 1, continuation frame: first payload byte equals
the first frame's first payload byte `0x08`, carrying the remaining bytes. -/
def frameCont : Frame :=
  ⟨build_arbitration_id 0x08 0 1 2, [0x08, 0x42, 0x2B]⟩

/-- A continuation frame whose first payload byte happens to equal `0x42`,
the key the code actually stored the pending entry under. -/
def frameContMatch : Frame :=
  ⟨build_arbitration_id 0x08 0 1 2, [0x42, 0x42, 0x2B]⟩

/-- A complete single-frame RESPONSE message (`declared_length = 0`) for
datapoint `(3, 4, 5)` carrying the value byte `42`. -/
def frameSingle : Frame :=
  ⟨build_arbitration_id 0x1f 0 1 2, [0x00, 0x42, 3, 4, 0, 5, 42]⟩

/-- A single-frame RESPONSE whose payload has only the two header bytes,
so the reassembled buffer is shorter than 6 bytes. -/
def frameShortResponse : Frame :=
  ⟨build_arbitration_id 0x1f 0 1 2, [0x00, 0x42]⟩

/-! ## Helper lemmas -/

@[simp] lemma create_arbitration_id (a o l : Nat) :
    (ReceiveMessage.create a o l).arbitration_id = a := rfl

@[simp] lemma create_operation_id (a o l : Nat) :
    (ReceiveMessage.create a o l).operation_id = o := rfl

@[simp] lemma create_message_len (a o l : Nat) :
    (ReceiveMessage.create a o l).message_len = l := rfl

@[simp] lemma create_message_id (a o l : Nat) :
    (ReceiveMessage.create a o l).message_id = a >>> 24 := rfl

@[simp] lemma create_device_id (a o l : Nat) :
    (ReceiveMessage.create a o l).device_id = a &&& 0xff := rfl

@[simp] lemma create_device_type (a o l : Nat) :
    (ReceiveMessage.create a o l).device_type = a >>> 8 &&& 0xff := rfl

/-- Helper: `put_data` never changes `operation_id`. -/
@[simp] lemma put_data_operation_id (m : ReceiveMessage) (d : List Nat) :
    (m.put_data d).operation_id = m.operation_id := by
  unfold ReceiveMessage.put_data
  split <;> rfl

/-- Helper: the shape of every successful `ReceiveMessage.parse` result: the
datapoint comes from the registry lookup on the buffer's triple, the
operation is `Operation(self.operation_id)`, and the value is the
registry-declared type applied to the bytes from offset 6. -/
lemma receive_parse_ok_shape (registry : Registry) (m : ReceiveMessage)
    (r : Datapoint × Operation × Value) (h : m.parse registry = .ok r) :
    registry (m.data.getD 2 0) (m.data.getD 3 0)
        (bytesToNat ((m.data.drop 4).take 2)) = some r.1 ∧
    Operation.ofValue m.operation_id = some r.2.1 ∧
    r.2.2 = r.1.get_datapoint_type.convert_from_bytes (m.data.drop 6) := by
  unfold ReceiveMessage.parse at h
  by_cases hlen : m.data.length < 6
  · rw [if_pos hlen] at h
    exact absurd h (by simp)
  · rw [if_neg hlen] at h
    rcases hreg : registry (m.data.getD 2 0) (m.data.getD 3 0)
        (bytesToNat ((m.data.drop 4).take 2)) with _ | read_datapoint
    · simp only [hreg] at h
      exact absurd h (by simp)
    · simp only [hreg] at h
      rcases hlim : read_datapoint.get_datapoint_limits with _ | lim
      · simp only [hlim] at h
        rcases hop : Operation.ofValue m.operation_id with _ | op
        · simp only [hop] at h
          exact absurd h (by simp)
        · simp only [hop] at h
          have h' : (read_datapoint, op,
              read_datapoint.get_datapoint_type.convert_from_bytes (m.data.drop 6)) = r := by
            simpa using h
          subst h'
          exact ⟨rfl, rfl, rfl⟩
      · simp only [hlim] at h
        rcases hcv : read_datapoint.get_datapoint_type.convert_from_bytes (m.data.drop 6)
            with q | raw | s
        · simp only [hcv] at h
          by_cases hq : q < lim.lower ∨ q > lim.upper
          · rw [if_pos hq] at h
            exact absurd h (by simp)
          · rw [if_neg hq] at h
            rcases hop : Operation.ofValue m.operation_id with _ | op
            · simp only [hop] at h
              exact absurd h (by simp)
            · simp only [hop] at h
              have h' : (read_datapoint, op, Value.num q) = r := by
                simpa using h
              subst h'
              exact ⟨rfl, rfl, hcv.symm⟩
        · simp only [hcv] at h
          exact absurd h (by simp)
        · simp only [hcv] at h
          exact absurd h (by simp)

/-! ## Claim theorems -/

/-- Helper: full evaluation of `ResponseParser.parse` on the complete
single-frame RESPONSE message `frameSingle` from the empty state. -/
lemma parse_frameSingle_eval :
    ResponseParser.parse registry0 st0 frameSingle =
      (.ok (some (dp0, .RESPONSE, .num 42)), ⟨[], [(2, ⟨2, 1⟩)]⟩) := by
  norm_num [ResponseParser.parse, ReceiveMessage.parse, ReceiveMessage.create,
    ReceiveMessage.put_data, ReceiveMessage.is_valid, ReceiveMessage.message_id,
    ReceiveMessage.device_id, ReceiveMessage.device_type, Operation.list,
    Operation.ofValue, registry0, dp0, dpLim, frameSingle, st0, tableLookup, tableSet,
    diagnostic_candidates, Datatype.convert_from_bytes, bytesToNat, toSigned,
    Datapoint.get_datapoint_type, Datapoint.get_datapoint_limits, build_arbitration_id]
  decide

/-- C1: the pending-reassembly table is NOT keyed by the first payload byte
of the first frame, and a multi-frame sequence never completes.  Evaluating
the code on the spec's own scenario: (a) a complete single-frame message
(`declared_length = 0`) does produce exactly one result immediately; (b) the
first frame of a 2-frame sequence produces no result and files the pending
entry under key `0x42` — its operation code — not under its first payload
byte `0x08`; (c) the in-order continuation carrying the session key `0x08` is
silently dropped, leaving the state unchanged, so zero results are produced
after the final frame; (d) a continuation whose first byte instead matches
the stored key `0x42` raises `AttributeError` (the stored value is a set). -/
theorem multiframe_reassembly_never_completes :
    (ResponseParser.parse registry0 st0 frameSingle).1 =
      .ok (some (dp0, .RESPONSE, .num 42)) ∧
    (ResponseParser.parse registry0 st0 frameFirst).1 = .ok none ∧
    ((ResponseParser.parse registry0 st0 frameFirst).2).pending_msg.map Prod.fst = [0x42] ∧
    ResponseParser.parse registry0 (ResponseParser.parse registry0 st0 frameFirst).2 frameCont =
      (.ok none, (ResponseParser.parse registry0 st0 frameFirst).2) ∧
    (ResponseParser.parse registry0 (ResponseParser.parse registry0 st0 frameFirst).2
        frameContMatch).1 = .error .attributeError := by
  refine ⟨?_, by decide, by decide, by decide, by decide⟩
  rw [parse_frameSingle_eval]

/-- C2: the arbitration-id round trip fails for `device_type`:
`get_message_device_type` masks with `0xfff` instead of `0xff`, so for
`(message_kind, priority, device_type, device_id) = (0, 1, 0, 0)` — every
component within its 8-bit field — decoding the built identifier `65536`
yields `device_type = 256`, not `0`, while the `Message` class's own
extractor (mask `0xff`) and the other three field extractors recover the
original values. -/
theorem device_type_extractor_mask_bug :
    build_arbitration_id 0 1 0 0 = 65536 ∧
    get_message_device_type (build_arbitration_id 0 1 0 0) = 256 ∧
    (ReceiveMessage.create (build_arbitration_id 0 1 0 0) 0x42 0).device_type = 0 ∧
    get_message_id (build_arbitration_id 0 1 0 0) = 0 ∧
    get_message_priority (build_arbitration_id 0 1 0 0) = 1 ∧
    get_message_device_id (build_arbitration_id 0 1 0 0) = 0 := by
  decide

/-- C3 counterexample: a rejection does raise a fatal error out of
`ResponseParser.parse`: a single-frame RESPONSE whose reassembled buffer is
shorter than 6 bytes makes `parse` raise `NoValidMessageException`
(uncaught in `core.py`), after having registered the device. -/
theorem short_single_frame_response_raises :
    ResponseParser.parse registry0 st0 frameShortResponse =
      (.error .noValidMessageTooShort, ⟨[], [(2, ⟨2, 1⟩)]⟩) := by
  decide

/-- C4 counterexample: for the device with `device_type = 1`,
`device_id = 2`, decoding the arbitration id computed by `PeriodicRequest`
with the spec's priority extractor (bits 23-16) yields `224`, not the
constant `8160` the claim states (8160 does not fit the 8-bit field). -/
theorem periodic_priority_field_not_8160 :
    get_message_priority (PeriodicRequest.arbitration_id ⟨2, 1⟩) = 224 ∧
    ¬ get_message_priority (PeriodicRequest.arbitration_id ⟨2, 1⟩) = 8160 := by
  decide

/-- C4 amended: for every device with byte-sized type and id, the arbitration
id computed by `PeriodicRequest.__init__` (identical to `OneTimeRequest`'s)
decodes to `message_kind = 0x1f`, priority field `224` (= 8160 mod 256; the
13-bit constant 8160 spans the message-kind and priority fields), and the
given `device_type` and `device_id`. -/
theorem periodic_arbitration_id_fields :
    ∀ dt, dt < 256 → ∀ did, did < 256 →
      get_message_id (PeriodicRequest.arbitration_id ⟨did, dt⟩) = 0x1f ∧
      get_message_priority (PeriodicRequest.arbitration_id ⟨did, dt⟩) = 224 ∧
      get_message_device_type (PeriodicRequest.arbitration_id ⟨did, dt⟩) = dt ∧
      get_message_device_id (PeriodicRequest.arbitration_id ⟨did, dt⟩) = did ∧
      OneTimeRequest.arbitration_id ⟨did, dt⟩ = PeriodicRequest.arbitration_id ⟨did, dt⟩ := by
  intro dt h1 did h2
  have harb : PeriodicRequest.arbitration_id ⟨did, dt⟩ =
      8160 * 2 ^ 16 + dt * 2 ^ 8 + did := by
    show (8160 <<< 16) ||| (dt <<< 8) ||| did = _
    have e1 : (8160 : Nat) <<< 16 = 2 ^ 16 * 8160 := by rw [Nat.shiftLeft_eq]; ring
    have e2 : dt <<< 8 = 2 ^ 8 * dt := by rw [Nat.shiftLeft_eq]; ring
    have hb1 : 2 ^ 8 * dt < 2 ^ 16 := by omega
    have step1 : (2 ^ 16 * 8160) ||| (2 ^ 8 * dt) = 2 ^ 16 * 8160 + 2 ^ 8 * dt :=
      (Nat.mul_add_lt_is_or hb1 8160).symm
    have e3 : 2 ^ 16 * 8160 + 2 ^ 8 * dt = 2 ^ 8 * (2 ^ 8 * 8160 + dt) := by ring
    have step2 : (2 ^ 8 * (2 ^ 8 * 8160 + dt)) ||| did = 2 ^ 8 * (2 ^ 8 * 8160 + dt) + did :=
      (Nat.mul_add_lt_is_or h2 _).symm
    rw [e1, e2, step1, e3, step2]
    ring
  have m8 : ∀ x : Nat, x &&& 0xff = x % 2 ^ 8 := fun x => Nat.and_pow_two_sub_one_eq_mod x 8
  have m12 : ∀ x : Nat, x &&& 0xfff = x % 2 ^ 12 := fun x => Nat.and_pow_two_sub_one_eq_mod x 12
  have hsame : OneTimeRequest.arbitration_id ⟨did, dt⟩ =
      PeriodicRequest.arbitration_id ⟨did, dt⟩ := rfl
  refine ⟨?_, ?_, ?_, ?_, hsame⟩ <;>
    simp only [get_message_id, get_message_priority, get_message_device_type,
      get_message_device_id, harb, Nat.shiftRight_eq_div_pow, m8, m12] <;>
    omega

/-- Witness for C4's amended theorem at `device_type = 1`, `device_id = 2`. -/
theorem periodic_arbitration_id_fields_witness :
    get_message_id (PeriodicRequest.arbitration_id ⟨2, 1⟩) = 0x1f ∧
    get_message_priority (PeriodicRequest.arbitration_id ⟨2, 1⟩) = 224 ∧
    get_message_device_type (PeriodicRequest.arbitration_id ⟨2, 1⟩) = 1 ∧
    get_message_device_id (PeriodicRequest.arbitration_id ⟨2, 1⟩) = 2 ∧
    OneTimeRequest.arbitration_id ⟨2, 1⟩ = PeriodicRequest.arbitration_id ⟨2, 1⟩ :=
  periodic_arbitration_id_fields 1 (by decide) 2 (by decide)

/-- C8: a frame with fewer than 2 payload bytes produces no result and
leaves the whole parser state — the device table included — unchanged. -/
theorem short_frame_no_state_change :
    ∀ (registry : Registry) (st : ParserState) (msg : Frame),
      msg.data.length < 2 →
      ResponseParser.parse registry st msg = (.ok none, st) := by
  intro registry st msg h
  unfold ResponseParser.parse
  rw [if_pos h]

/-- Witness for C8 at a concrete 1-byte frame and non-empty state. -/
theorem short_frame_no_state_change_witness :
    ResponseParser.parse registry0 ⟨[], [(2, ⟨2, 1⟩)]⟩ ⟨7, [1]⟩ =
      (.ok none, ⟨[], [(2, ⟨2, 1⟩)]⟩) :=
  short_frame_no_state_change registry0 ⟨[], [(2, ⟨2, 1⟩)]⟩ ⟨7, [1]⟩ (by decide)

/-- C9 counterexample: with every MQTT setting absent from both the
environment and the settings source, `parse_mqtt_settings` returns normally
(the `VariableNotFoundError` raised for the required `name` is caught and
logged), producing only the defaulted `enable` entry — the program is not
aborted by the settings parser. -/
theorem missing_required_settings_not_fatal :
    parse_mqtt_settings (fun _ => none) (fun _ => none) =
      [("enable", .vBool true)] := by
  decide

/-- C3 amended, both directions of the iff.  (1) Whenever
`ResponseParser.parse` returns a surfaced result, the frame's operation code
(`data[1]`) is RESPONSE = 0x42 and the result's operation component is
`Operation.RESPONSE` — so completed non-RESPONSE messages and all drop-cases
yield no surfaced result.  (2) Conversely, every complete single-frame
RESPONSE message (at least 2 payload bytes, `message_kind = 0x1f`,
`declared_length = 0`, operation byte 0x42) whose reassembled buffer parses
successfully has its parsed result surfaced to the caller.  (Single-frame is
the only way a reassembly completes in this code; data-parse rejections
raise, see the counterexample.) -/
theorem surfaced_result_requires_response :
    (∀ (registry : Registry) (st : ParserState) (msg : Frame)
       (r : Datapoint × Operation × Value) (st' : ParserState),
       ResponseParser.parse registry st msg = (.ok (some r), st') →
       msg.data.getD 1 0 = 0x42 ∧ r.2.1 = Operation.RESPONSE) ∧
    (∀ (registry : Registry) (st : ParserState) (msg : Frame)
       (r : Datapoint × Operation × Value),
       ¬ msg.data.length < 2 →
       msg.arbitration_id >>> 24 = 0x1f →
       msg.data.getD 0 0 >>> 3 = 0 →
       msg.data.getD 1 0 = 0x42 →
       ((ReceiveMessage.create msg.arbitration_id (msg.data.getD 1 0)
           (msg.data.getD 0 0 >>> 3)).put_data msg.data).parse registry = .ok r →
       (ResponseParser.parse registry st msg).1 = .ok (some r)) := by
  constructor
  case right =>
    intro registry st msg r h2 hid hlen hop hp
    simp only [ResponseParser.parse, create_operation_id, create_message_id,
      create_message_len, put_data_operation_id]
    have hcontains : Operation.list.contains (msg.data.getD 1 0) = true := by
      rw [hop]
      decide
    rw [if_neg h2, if_pos hcontains, if_pos hid, if_pos hlen, if_pos hop, hp]
  case left =>
  intro registry st msg r st' h
  simp only [ResponseParser.parse, create_operation_id, create_message_id,
    create_message_len, put_data_operation_id] at h
  by_cases h2 : msg.data.length < 2
  · rw [if_pos h2] at h
    simp at h
  · rw [if_neg h2] at h
    by_cases hvalid : Operation.list.contains (msg.data.getD 1 0) = true
    · rw [if_pos hvalid] at h
      by_cases hid : msg.arbitration_id >>> 24 = 0x1f
      · rw [if_pos hid] at h
        by_cases hlen : msg.data.getD 0 0 >>> 3 = 0
        · rw [if_pos hlen] at h
          by_cases hop : msg.data.getD 1 0 = 0x42
          · rw [if_pos hop] at h
            rcases hp : ((ReceiveMessage.create msg.arbitration_id (msg.data.getD 1 0)
                (msg.data.getD 0 0 >>> 3)).put_data msg.data).parse registry with e | rr
            · rw [hp] at h
              simp at h
            · rw [hp] at h
              have hrr : rr = r := by
                have := congrArg Prod.fst h
                simpa using this
              subst hrr
              refine ⟨hop, ?_⟩
              have hofv := (receive_parse_ok_shape _ _ _ hp).2.1
              rw [put_data_operation_id, create_operation_id, hop] at hofv
              have hsome : some Operation.RESPONSE = some rr.2.1 := by
                simpa [Operation.ofValue] using hofv
              exact (Option.some.inj hsome).symm
          · rw [if_neg hop] at h
            rcases hp : ((ReceiveMessage.create msg.arbitration_id (msg.data.getD 1 0)
                (msg.data.getD 0 0 >>> 3)).put_data msg.data).parse registry with e | rr <;>
              rw [hp] at h <;> simp at h
        · rw [if_neg hlen] at h
          simp at h
      · rw [if_neg hid] at h
        rcases hl : tableLookup (msg.data.getD 0 0) st.pending_msg with _ | s <;>
          rw [hl] at h <;> simp at h
    · rw [if_neg hvalid] at h
      simp at h

/-- Helper: full evaluation of the reassembled message built from
`frameSingle` by the single-frame branch of `ResponseParser.parse`. -/
lemma frameSingle_message_parse_eval :
    ((ReceiveMessage.create frameSingle.arbitration_id (frameSingle.data.getD 1 0)
        (frameSingle.data.getD 0 0 >>> 3)).put_data frameSingle.data).parse registry0 =
      .ok (dp0, .RESPONSE, .num 42) := by
  norm_num [ReceiveMessage.parse, ReceiveMessage.create, ReceiveMessage.put_data,
    ReceiveMessage.is_valid, frameSingle, registry0, dp0, dpLim, diagnostic_candidates,
    Datatype.convert_from_bytes, bytesToNat, toSigned, Datapoint.get_datapoint_type,
    Datapoint.get_datapoint_limits, Operation.ofValue, Operation.list,
    build_arbitration_id]

/-- Witness for C3's amended theorem at the concrete complete single-frame
RESPONSE message of scenario `frameSingle`: both iff directions
instantiated. -/
theorem surfaced_result_requires_response_witness :
    (frameSingle.data.getD 1 0 = 0x42 ∧
      (dp0, Operation.RESPONSE, Value.num 42).2.1 = Operation.RESPONSE) ∧
    (ResponseParser.parse registry0 st0 frameSingle).1 =
      .ok (some (dp0, Operation.RESPONSE, Value.num 42)) :=
  ⟨surfaced_result_requires_response.1 registry0 st0 frameSingle
      (dp0, Operation.RESPONSE, Value.num 42) ⟨[], [(2, ⟨2, 1⟩)]⟩ parse_frameSingle_eval,
   surfaced_result_requires_response.2 registry0 st0 frameSingle
      (dp0, Operation.RESPONSE, Value.num 42)
      (by decide) (by decide) (by decide) (by decide) frameSingle_message_parse_eval⟩

/-- C5: limits enforcement in `ReceiveMessage.parse`.  For a buffer of at
least 6 bytes whose datapoint is found in the registry, declares limits
`[lo, hi]`, and decodes to a numeric value `q`: `parse` raises the
out-of-bounds `NoValidMessageException` exactly when `q < lo ∨ q > hi`, and
returns the parsed triple whenever `lo ≤ q ∧ q ≤ hi` (bounds included). -/
theorem limits_enforcement_iff :
    ∀ (registry : Registry) (m : ReceiveMessage) (dp : Datapoint) (lo hi q : ℚ)
      (op : Operation),
      ¬ m.data.length < 6 →
      registry (m.data.getD 2 0) (m.data.getD 3 0)
          (bytesToNat ((m.data.drop 4).take 2)) = some dp →
      dp.get_datapoint_limits = some ⟨lo, hi⟩ →
      dp.get_datapoint_type.convert_from_bytes (m.data.drop 6) = .num q →
      Operation.ofValue m.operation_id = some op →
      (m.parse registry = .error .noValidMessageOutOfBounds ↔ (q < lo ∨ q > hi)) ∧
      ((lo ≤ q ∧ q ≤ hi) → m.parse registry = .ok (dp, op, .num q)) := by
  intro registry m dp lo hi q op hlen hreg hlim hval hop
  unfold ReceiveMessage.parse
  rw [if_neg hlen]
  simp only [hreg, hlim, hval, hop]
  by_cases hq : q < lo ∨ q > hi
  · rw [if_pos hq]
    refine ⟨iff_of_true rfl hq, fun hc => absurd hq ?_⟩
    push_neg
    exact ⟨hc.1, hc.2⟩
  · rw [if_neg hq]
    exact ⟨iff_of_false (by simp) hq, fun _ => rfl⟩

/-- A concrete reassembled message whose buffer addresses the limited
datapoint `(3, 4, 6)` with value byte 10. -/
def mC5 : ReceiveMessage := ⟨0x1F000102, 0x42, 0, 1, [0, 0x42, 3, 4, 0, 6, 10]⟩

/-- Witness for C5 at `mC5`: value 10 lies inside the declared `[0, 20]`,
so `parse` returns it. -/
theorem limits_enforcement_iff_witness :
    mC5.parse registry0 = .ok (dpLim, Operation.RESPONSE, Value.num 10) :=
  (limits_enforcement_iff registry0 mC5 dpLim 0 20 10 .RESPONSE
      (by decide) (by decide) rfl
      (by norm_num [mC5, dpLim, Datapoint.get_datapoint_type,
            Datatype.convert_from_bytes, bytesToNat])
      rfl).2
    ⟨by norm_num, by norm_num⟩

/-- C6: `SendMessage.to_can_message` raises the frame-too-large
`NoValidMessageException` exactly when the 6-byte header plus the payload
exceeds 8 bytes, i.e. when the payload is longer than 2 bytes; otherwise it
returns the CAN frame whose data is the header followed by the payload. -/
theorem outbound_size_guard :
    ∀ (arb op : Nat) (dp : Datapoint) (payload : List Nat),
      Operation.list.contains op = true →
      ((SendMessage.create arb op dp).put_data payload).to_can_message =
        (if 2 < payload.length then .error .noValidMessageTooLong
         else .ok ⟨arb, ([1, op, dp.function_group, dp.function_number] ++
             dp.get_datapoint_by_bytes) ++ payload, true⟩) := by
  intro arb op dp payload hop
  simp only [SendMessage.create, SendMessage.put_data, SendMessage.is_valid,
    SendMessage.to_can_message, SendMessage.message_size, hop, if_true,
    Datapoint.get_datapoint_by_bytes]
  split
  next hcond =>
    rw [if_pos (by simp at hcond; omega)]
  next hcond =>
    rw [if_neg (by simp at hcond; omega)]
    simp

/-- Witness for C6: with a 3-byte payload the frame is rejected. -/
theorem outbound_size_guard_witness :
    ((SendMessage.create 5 0x46 dp0).put_data [9, 9, 9]).to_can_message =
      .error .noValidMessageTooLong := by
  have h := outbound_size_guard 5 0x46 dp0 [9, 9, 9] (by decide)
  simpa using h

/-- C7: width-dispatch policy.  (1) The diagnostic candidate list of
`ReceiveMessage.parse` holds exactly the three decodes Signed, Unsigned,
EnumList at the matching width for value slices of length 1, 2 or 4, and
only the EnumList decode otherwise.  (2) Every value returned by a
successful `parse` is produced by the registry datapoint's declared type
applied to the value bytes, never by a guessed candidate. -/
theorem width_dispatch_policy :
    (∀ bs : List Nat,
      (diagnostic_candidates bs).map Prod.fst =
        if bs.length = 1 then [.signed 8 1, .unsigned 8 1, .list]
        else if bs.length = 2 then [.signed 16 1, .unsigned 16 1, .list]
        else if bs.length = 4 then [.signed 32 1, .unsigned 32 1, .list]
        else [.list]) ∧
    (∀ (registry : Registry) (m : ReceiveMessage) (r : Datapoint × Operation × Value),
      m.parse registry = .ok r →
      r.2.2 = r.1.get_datapoint_type.convert_from_bytes (m.data.drop 6) ∧
      registry (m.data.getD 2 0) (m.data.getD 3 0)
          (bytesToNat ((m.data.drop 4).take 2)) = some r.1) := by
  constructor
  · intro bs
    unfold diagnostic_candidates
    split_ifs <;> rfl
  · intro registry m r h
    have hs := receive_parse_ok_shape registry m r h
    exact ⟨hs.2.2, hs.1⟩

/-- A concrete reassembled message addressing datapoint `(3, 4, 5)` with
value byte 42. -/
def mC7 : ReceiveMessage := ⟨0x1F000102, 0x42, 0, 1, [0, 0x42, 3, 4, 0, 5, 42]⟩

/-- Helper: full evaluation of `ReceiveMessage.parse` on `mC7`. -/
lemma mC7_parse_eval : mC7.parse registry0 = .ok (dp0, .RESPONSE, .num 42) := by
  norm_num [ReceiveMessage.parse, mC7, registry0, dp0, dpLim, diagnostic_candidates,
    Datatype.convert_from_bytes, bytesToNat, toSigned, Datapoint.get_datapoint_type,
    Datapoint.get_datapoint_limits, Operation.ofValue]

/-- Witness for C7 at the 1-byte slice `[9]` and the concrete parse `mC7`. -/
theorem width_dispatch_policy_witness :
    (diagnostic_candidates [9]).map Prod.fst = [.signed 8 1, .unsigned 8 1, .list] ∧
    (Value.num 42 = dp0.get_datapoint_type.convert_from_bytes (mC7.data.drop 6) ∧
      registry0 (mC7.data.getD 2 0) (mC7.data.getD 3 0)
          (bytesToNat ((mC7.data.drop 4).take 2)) = some dp0) := by
  refine ⟨?_, width_dispatch_policy.2 registry0 mC7 (dp0, .RESPONSE, .num 42)
    mC7_parse_eval⟩
  have h := width_dispatch_policy.1 [9]
  simpa using h

/-- Helper: `get_env_settings_safe` with a non-`None` default never raises. -/
lemma get_env_settings_safe_default_ok (env : String → Option String)
    (ename sname : String) (element : String → Option PyVal) (d : PyVal) :
    ∃ v, get_env_settings_safe env ename sname element (some d) = .ok v := by
  unfold get_env_settings_safe
  rcases env ename with _ | s
  · rcases element sname with _ | v
    · exact ⟨d, rfl⟩
    · exact ⟨v, rfl⟩
  · dsimp only
    split_ifs <;> exact ⟨_, rfl⟩

/-- C9 amended: a required MQTT setting (here `name`) absent from both the
environment and the settings source makes `get_env_settings_safe` raise
`VariableNotFoundError`, but `parse_mqtt_settings` catches and logs it and
returns normally with only the already-assigned `enable` key — startup is
not aborted by the settings parser. -/
theorem missing_name_settings_partial :
    ∀ (env : String → Option String) (element : String → Option PyVal),
      env "MQTT_NAME" = none → element "name" = none →
      ∃ v, parse_mqtt_settings env element = [("enable", v)] := by
  intro env element h1 h2
  obtain ⟨v, hv⟩ :=
    get_env_settings_safe_default_ok env "MQTT_ENABLE" "enable" element (.vBool true)
  refine ⟨v, ?_⟩
  have hname : get_env_settings_safe env "MQTT_NAME" "name" element none =
      .error .variableNotFound := by
    simp only [get_env_settings_safe, h1, h2]
  simp only [parse_mqtt_settings, mqtt_setting_specs, collect_settings, hv, hname]

/-- Witness for C9's amended theorem: empty environment and empty settings. -/
theorem missing_name_settings_partial_witness :
    ∃ v, parse_mqtt_settings (fun _ => none) (fun _ => none) = [("enable", v)] :=
  missing_name_settings_partial (fun _ => none) (fun _ => none) rfl rfl

/-- C10: the device table is keyed by `device_id` alone — whenever the
frame's `device_id` (low byte of the arbitration id) is already a key of
`_devices`, `ResponseParser.parse` leaves the device table unchanged,
whatever the frame's `device_type` is. -/
theorem device_table_keyed_by_id_only :
    ∀ (registry : Registry) (st : ParserState) (msg : Frame),
      (tableLookup (msg.arbitration_id &&& 0xff) st.devices).isSome = true →
      ((ResponseParser.parse registry st msg).2).devices = st.devices := by
  intro registry st msg h
  have hfalse : (tableLookup (msg.arbitration_id &&& 0xff) st.devices).isNone = false := by
    rcases hx : tableLookup (msg.arbitration_id &&& 0xff) st.devices with _ | v
    · rw [hx] at h
      simp at h
    · rfl
  simp only [ResponseParser.parse, create_device_id, hfalse, Bool.false_eq_true, if_false]
  repeat' split
  all_goals rfl

/-- The parser state with a device already registered under `device_id = 2`
with `device_type = 1`. -/
def stC10 : ParserState := ⟨[], [(2, ⟨2, 1⟩)]⟩

/-- A frame from `device_id = 2` but `device_type = 9`. -/
def frameC10 : Frame := ⟨build_arbitration_id 0x1f 0 9 2, [0, 0x42, 3, 4, 0, 5, 42]⟩

/-- Witness for C10: the frame's differing `device_type = 9` does not create
or replace any device entry. -/
theorem device_table_keyed_by_id_only_witness :
    ((ResponseParser.parse registry0 stC10 frameC10).2).devices = stC10.devices :=
  device_table_keyed_by_id_only registry0 stC10 frameC10 (by decide)

end HovalGateway
